import Mathlib

/-!
# Verification of the PyToApkConverter configuration store and build orchestrator

Shallow embedding of `src/main.py` (class `PyToApkConverter`).

The configuration store (`init_config`, `load_saved_config`, `save_config`),
the recent-projects menu (`update_recent_projects_menu`) and the `__init__`
sequence are translated directly from the source.  The JSON layer is embedded
at the level of parsed JSON values (`JValue`): `json.dump` writes the document
tree and `json.load` returns it; the byte-level serialisation performed by the
Python `json` library is treated as an external collaborator, as the spec does.

The source file ends mid-expression inside `update_recent_projects_menu`
(line 228): the build-orchestration methods referenced by the menu
(`start_build_apk`, the streaming/completion handlers, `clean_build`, ...)
are not present under `src/`.  Those are modelled from the spec (section 4.3
"Build Orchestrator"); every such definition carries a doc comment starting
with "Modelled from the spec".
-/

namespace PyApk

/-- A recent-project entry as persisted in `config.json`
(spec section 3: `{name, path, last_built_timestamp}`). -/
structure Project where
  name : String
  path : String
  last_built_timestamp : Int
deriving Repr, DecidableEq

/-- The persisted user configuration (spec section 3 `UserConfig`; the dict
written by `init_config` / `save_config` in `src/main.py`). -/
structure UserConfig where
  last_python_dir : String
  last_output_dir : String
  recent_projects : List Project
deriving Repr, DecidableEq

/-- Parsed JSON documents, as returned by `json.load` / consumed by
`json.dump`, restricted to the value shapes this program reads and writes. -/
inductive JValue where
  | jstr (s : String)
  | jint (n : Int)
  | jarr (elems : List JValue)
  | jobj (fields : List (String × JValue))
deriving Repr

/-- The JSON object `json.dump` receives for one recent-project entry. -/
def dumpProject (p : Project) : JValue :=
  .jobj [("name", .jstr p.name),
         ("path", .jstr p.path),
         ("last_built_timestamp", .jint p.last_built_timestamp)]

/-- The JSON object `json.dump` receives in `save_config` for a `UserConfig`
(the dict literal built in `init_config`, lines 72-76 of `src/main.py`). -/
def dumpConfig (c : UserConfig) : JValue :=
  .jobj [("last_python_dir", .jstr c.last_python_dir),
         ("last_output_dir", .jstr c.last_output_dir),
         ("recent_projects", .jarr (c.recent_projects.map dumpProject))]

/-- Python `dict.get(key)` on a parsed JSON object. -/
def jlookup (kvs : List (String × JValue)) (key : String) : Option JValue :=
  kvs.lookup key

/-- Read one recent-project entry back from its JSON form. -/
def decodeProject (j : JValue) : Option Project :=
  match j with
  | .jobj kvs =>
    match jlookup kvs "name", jlookup kvs "path",
          jlookup kvs "last_built_timestamp" with
    | some (.jstr n), some (.jstr p), some (.jint t) => some ⟨n, p, t⟩
    | _, _, _ => none
  | _ => none

/-- Read a list of recent-project entries back from JSON. -/
def decodeProjects : List JValue → Option (List Project)
  | [] => some []
  | j :: rest =>
    match decodeProject j, decodeProjects rest with
    | some p, some ps => some (p :: ps)
    | _, _ => none

/-- The fields `load_saved_config` extracts from the parsed document
(lines 84-85 of `src/main.py`): `config.get('last_output_dir', '')` and
`config.get('recent_projects', [])`.  `none` models the paths on which the
Python body would raise inside its `try` block (document is not a dict, or a
field has an unusable shape); `last_python_dir` is deliberately not read,
exactly as in the source. -/
def decodeLoaded (j : JValue) : Option (String × List Project) :=
  match j with
  | .jobj kvs =>
    match (jlookup kvs "last_output_dir").getD (.jstr ""),
          (jlookup kvs "recent_projects").getD (.jarr []) with
    | .jstr out, .jarr rs => (decodeProjects rs).map (fun ps => (out, ps))
    | _, _ => none
  | _ => none

/-- Field-for-field read-back of a stored configuration document: every key
`save_config` writes, looked up the way `json.load` exposes it.  Used to state
the save/load round-trip over all fields. -/
def readStoredConfig (j : JValue) : Option UserConfig :=
  match j with
  | .jobj kvs =>
    match jlookup kvs "last_python_dir", jlookup kvs "last_output_dir",
          jlookup kvs "recent_projects" with
    | some (.jstr p), some (.jstr o), some (.jarr rs) =>
      (decodeProjects rs).map (fun ps => ⟨p, o, ps⟩)
    | _, _, _ => none
  | _ => none

/-- State of the configuration file on disk. -/
inductive FileState where
  | absent
  | corrupt
  | content (j : JValue)
deriving Repr

/-- The file-system / environment state the configuration store touches:
the user's home directory path, whether writes to the config file succeed,
the config file itself, and the application log (`self.logger`). -/
structure World where
  home : String
  writable : Bool
  file : FileState
  applog : List String
deriving Repr

/-- The parts of the Tk form state the claims are about: the `python_file`
and `output_dir` StringVars, the in-memory `recent_projects` list and the
labels of the Recent Projects menu. -/
structure AppState where
  python_file : String
  output_dir : String
  recent_projects : List Project
  recent_menu : List String
deriving Repr, DecidableEq

/-- The dict literal of `init_config` (lines 72-76 of `src/main.py`):
`last_python_dir = str(Path.home())`,
`last_output_dir = str(Path.home() / 'APK_Output')`,
`recent_projects = []`. -/
def default_config (home : String) : UserConfig :=
  { last_python_dir := home
    last_output_dir := home ++ "/APK_Output"
    recent_projects := [] }

/-- `save_config` (lines 90-96): `json.dump(config, f, indent=4)` inside a
`try` that logs any exception.  A failing write leaves the file untouched
and appends to the log. -/
def save_config (w : World) (c : UserConfig) : World :=
  if w.writable then { w with file := .content (dumpConfig c) }
  else { w with applog := w.applog ++ ["Failed to save config"] }

/-- `init_config` (lines 68-77): create the config file with the default
dict when it does not exist; otherwise do nothing. -/
def init_config (w : World) : World :=
  match w.file with
  | .absent => save_config w (default_config w.home)
  | _ => w

/-- Python `l[-5:]`: the last `n` elements of a list. -/
def lastN (n : Nat) (l : List α) : List α := l.drop (l.length - n)

/-- `update_recent_projects_menu` (lines 222-228): clear the menu and add one
entry per project in `self.recent_projects[-5:]`, labelled by the project's
`name` (the bound `load_project` callbacks are GUI actions and not modelled). -/
def update_recent_projects_menu (s : AppState) : AppState :=
  { s with recent_menu := (lastN 5 s.recent_projects).map Project.name }

/-- `load_saved_config` (lines 79-88): parse the config file, set
`self.output_dir` and `self.recent_projects` from it and rebuild the recent
menu; any exception is caught and logged, leaving the form state unchanged.
`FileState.absent` raises `FileNotFoundError` at `open`, `FileState.corrupt`
raises inside `json.load`; both land in the `except` branch. -/
def load_saved_config (w : World) (s : AppState) : World × AppState :=
  match w.file with
  | .content j =>
    match decodeLoaded j with
    | some (out, ps) =>
      (w, update_recent_projects_menu
            { s with output_dir := out, recent_projects := ps })
    | none => ({ w with applog := w.applog ++ ["Failed to load config"] }, s)
  | _ => ({ w with applog := w.applog ++ ["Failed to load config"] }, s)

/-- The form state as `__init__` builds it before any config is loaded:
fresh empty StringVars, an empty Recent Projects menu from `create_menu`. -/
def initialState : AppState :=
  { python_file := "", output_dir := "", recent_projects := [], recent_menu := [] }

/-- The `__init__` sequence (lines 57-66) restricted to the modelled state:
`init_config()`, (GUI setup,) `load_saved_config()`, then the final
`self.recent_projects = []` assignment of line 66. -/
def appInit (w : World) : World × AppState :=
  let w1 := init_config w
  let ws := load_saved_config w1 initialState
  (ws.1, { ws.2 with recent_projects := [] })

/-- The configuration-load operation the spec calls `load()`: ensure the file
exists (creating it with defaults when absent, as `__init__` does via
`init_config`) and then read it. -/
def loadOp (w : World) (s : AppState) : World × AppState :=
  load_saved_config (init_config w) s

/-! ## Build orchestrator, modelled from the spec

`src/main.py` ends at line 228, inside `update_recent_projects_menu`; the
methods the Tools menu binds (`start_build_apk` and the streaming/completion
handlers behind it) are missing from `src/`.  The definitions below are
modelled from spec sections 4.2-4.3 and 5. -/

/-- Modelled from the spec: terminal/running status of a `BuildRun`
(spec section 3: `running|succeeded|failed|cancelled`). -/
inductive BuildStatus where
  | running
  | succeeded
  | failed
  | cancelled
deriving Repr, DecidableEq

/-- Modelled from the spec: one `BuildRun` — accumulated log lines, current
progress percentage, status (spec section 3; the subprocess handle is the
external collaborator and is not modelled). -/
structure BuildRun where
  status : BuildStatus
  progress : Nat
  logLines : List String
deriving Repr, DecidableEq

/-- Modelled from the spec: the orchestrator-facing application state — the
two form fields the build reads, the in-memory `UserConfig`, the world (config
file), the history of build runs, the build-trigger control, the displayed
progress percentage and the prominently surfaced message lines. -/
structure Orch where
  python_file : String
  output_dir : String
  config : UserConfig
  world : World
  runs : List BuildRun
  triggerEnabled : Bool
  displayedProgress : Nat
  surfaced : List String
deriving Repr

/-- Number of runs currently `running` ("active" in the spec's sense). -/
def countActive (o : Orch) : Nat :=
  (o.runs.filter (fun r => r.status == BuildStatus.running)).length

/-- Modelled from the spec: the ordered marker table mapping known substrings
of the external tool's output to approximate progress percentages
(spec sections 4.3 "Streaming" and 9, markers from section 8). -/
def PROGRESS_MARKERS : List (String × Nat) :=
  [("Downloading", 25), ("Compiling", 50), ("Packaging", 75), ("Done", 100)]

/-- Substring test: does `s` contain `pat`? (Python `pat in s`.) -/
def strContains (s pat : String) : Bool :=
  (s.splitOn pat).length != 1

/-- Progress percentage a single output line maps to (0 when no marker
matches, so the displayed value is simply kept). -/
def pctOf (line : String) : Nat :=
  PROGRESS_MARKERS.foldl
    (fun acc m => if strContains line m.1 then max acc m.2 else acc) 0

/-- Modelled from the spec: `start_build_apk` (spec sections 4.2-4.3
"Start").  Validation: both paths non-empty and the script present on disk
(`fsExists`), else a validation message is surfaced and nothing starts; a
build is also rejected while a `BuildRun` is active.  On success a fresh
`running` `BuildRun` is appended and the build trigger is disabled. -/
def start_build_apk (fsExists : String → Bool) (o : Orch) : Orch :=
  if o.python_file = "" || o.output_dir = "" || !(fsExists o.python_file) then
    { o with surfaced := ["Please select a Python file and output directory"] }
  else if countActive o != 0 then
    { o with surfaced := ["A build is already in progress"] }
  else
    { o with runs := o.runs ++ [⟨.running, 0, []⟩],
             triggerEnabled := false,
             displayedProgress := 0,
             surfaced := [] }

/-- Modelled from the spec: the streaming step (spec section 4.3
"Streaming"): each subprocess output line is appended to the active run's log
and matched against `PROGRESS_MARKERS`; the displayed percentage only ever
moves up to a matched marker's value, never down. -/
def feedLine (o : Orch) (line : String) : Orch :=
  if countActive o == 0 then o
  else
    { o with
      runs := o.runs.map (fun r =>
        if r.status == BuildStatus.running then
          { r with logLines := r.logLines ++ [line],
                   progress := max r.progress (pctOf line) }
        else r),
      displayedProgress := max o.displayedProgress (pctOf line) }

/-- Modelled from the spec: completion (spec section 4.3 "Completion").
Exit code 0: the run becomes `succeeded`, progress is set to 100%, and the
output directory is recorded into `UserConfig` and persisted via
`save_config`.  Non-zero: the run becomes `failed` and the last 10 log lines
are surfaced prominently.  Either way the build trigger is re-enabled
(state machine re-entry to `idle`). -/
def completeBuild (o : Orch) (exitCode : Int) : Orch :=
  match o.runs.find? (fun r => r.status == BuildStatus.running) with
  | none => o
  | some r =>
    if exitCode = 0 then
      let c2 := { o.config with last_output_dir := o.output_dir }
      { o with
        runs := o.runs.map (fun r =>
          if r.status == BuildStatus.running then
            { r with status := .succeeded, progress := 100 }
          else r),
        displayedProgress := 100,
        triggerEnabled := true,
        config := c2,
        world := save_config o.world c2 }
    else
      { o with
        runs := o.runs.map (fun r =>
          if r.status == BuildStatus.running then { r with status := .failed }
          else r),
        surfaced := lastN 10 r.logLines,
        triggerEnabled := true }

/-- Modelled from the spec: cancellation (spec section 4.3): the active run
transitions to `cancelled`, partial output stays in the log, the trigger is
re-enabled. -/
def cancelBuild (o : Orch) : Orch :=
  if countActive o == 0 then o
  else
    { o with
      runs := o.runs.map (fun r =>
        if r.status == BuildStatus.running then { r with status := .cancelled }
        else r),
      triggerEnabled := true }

/-- Modelled from the spec: the orchestrator's startup state — no runs,
trigger enabled, form fields empty. -/
def initOrch (w : World) : Orch :=
  { python_file := "", output_dir := "", config := default_config w.home,
    world := w, runs := [], triggerEnabled := true, displayedProgress := 0,
    surfaced := [] }

/-- States reachable from startup through the orchestrator's operations:
the user may edit the two form fields at any time, start builds, and the
worker may stream lines, complete with any exit code, or cancel. -/
inductive Reachable : Orch → Prop where
  | init (w : World) : Reachable (initOrch w)
  | editForm (o : Orch) (pf od : String) (h : Reachable o) :
      Reachable { o with python_file := pf, output_dir := od }
  | start (o : Orch) (fs : String → Bool) (h : Reachable o) :
      Reachable (start_build_apk fs o)
  | line (o : Orch) (l : String) (h : Reachable o) :
      Reachable (feedLine o l)
  | done (o : Orch) (c : Int) (h : Reachable o) :
      Reachable (completeBuild o c)
  | cancel (o : Orch) (h : Reachable o) :
      Reachable (cancelBuild o)

/-! ## Helper lemmas -/

theorem decodeProject_dumpProject (p : Project) :
    decodeProject (dumpProject p) = some p := by
  cases p
  simp [decodeProject, dumpProject, jlookup, List.lookup]

theorem decodeProjects_map_dumpProject (ps : List Project) :
    decodeProjects (ps.map dumpProject) = some ps := by
  induction ps with
  | nil => rfl
  | cons p rest ih =>
    simp [decodeProjects, decodeProject_dumpProject, ih]

theorem decodeLoaded_dumpConfig (c : UserConfig) :
    decodeLoaded (dumpConfig c) = some (c.last_output_dir, c.recent_projects) := by
  simp [decodeLoaded, dumpConfig, jlookup, List.lookup,
        decodeProjects_map_dumpProject]

theorem readStoredConfig_dumpConfig (c : UserConfig) :
    readStoredConfig (dumpConfig c) = some c := by
  simp [readStoredConfig, dumpConfig, jlookup, List.lookup,
        decodeProjects_map_dumpProject]

/-! ## Claims C1-C6: configuration store, menu, init sequence -/

/-- C1 (counterexample): the claim's stated defaults are wrong.  On a first
launch (`file = absent`) the file is indeed created before being read, but
the created `last_output_dir` is `home ++ "/APK_Output"`, not the user's home
directory, so home is not "both last browse locations". -/
theorem c1_defaults_counterexample :
    (init_config ⟨"/home/user", true, FileState.absent, []⟩).file
      = FileState.content (dumpConfig (default_config "/home/user")) ∧
    (default_config "/home/user").last_output_dir ≠ "/home/user" :=
  ⟨rfl, by decide⟩

/-- C1 (amended): on a first launch where the configuration file does not
exist (and the directory is writable), `loadOp` creates the file with the
code's defaults — `last_python_dir` = home, `last_output_dir` =
home/`APK_Output`, empty recent list — before reading it, and loading twice
yields the same file content and the same form state (idempotence). -/
theorem c1_first_launch_defaults (w : World) (s : AppState)
    (habs : w.file = FileState.absent) (hw : w.writable = true) :
    (loadOp w s).1.file = FileState.content (dumpConfig (default_config w.home)) ∧
    (loadOp w s).2.output_dir = w.home ++ "/APK_Output" ∧
    (loadOp w s).2.recent_projects = [] ∧
    (loadOp (loadOp w s).1 (loadOp w s).2).1.file = (loadOp w s).1.file ∧
    (loadOp (loadOp w s).1 (loadOp w s).2).2 = (loadOp w s).2 := by
  simp only [loadOp, init_config, habs, save_config, hw, if_true]
  simp [load_saved_config, decodeLoaded_dumpConfig, init_config,
        update_recent_projects_menu, default_config, lastN]

/-- Witness for C1: concrete first launch from home `/home/user`. -/
theorem c1_first_launch_defaults_witness :
    (loadOp ⟨"/home/user", true, FileState.absent, []⟩ initialState).1.file
      = FileState.content (dumpConfig (default_config "/home/user")) ∧
    (loadOp ⟨"/home/user", true, FileState.absent, []⟩ initialState).2.output_dir
      = "/home/user" ++ "/APK_Output" ∧
    (loadOp ⟨"/home/user", true, FileState.absent, []⟩ initialState).2.recent_projects
      = [] ∧
    (loadOp (loadOp ⟨"/home/user", true, FileState.absent, []⟩ initialState).1
        (loadOp ⟨"/home/user", true, FileState.absent, []⟩ initialState).2).1.file
      = (loadOp ⟨"/home/user", true, FileState.absent, []⟩ initialState).1.file ∧
    (loadOp (loadOp ⟨"/home/user", true, FileState.absent, []⟩ initialState).1
        (loadOp ⟨"/home/user", true, FileState.absent, []⟩ initialState).2).2
      = (loadOp ⟨"/home/user", true, FileState.absent, []⟩ initialState).2 :=
  c1_first_launch_defaults ⟨"/home/user", true, FileState.absent, []⟩ initialState rfl rfl

/-- C2: saving a `UserConfig` with `save_config` and loading it back
round-trips: every stored field reads back exactly (`readStoredConfig`), and
`load_saved_config` restores `last_output_dir` and `recent_projects` into the
form state unchanged. -/
theorem c2_save_load_roundtrip (w : World) (s : AppState) (c : UserConfig)
    (hw : w.writable = true) :
    readStoredConfig (dumpConfig c) = some c ∧
    (load_saved_config (save_config w c) s).2.output_dir = c.last_output_dir ∧
    (load_saved_config (save_config w c) s).2.recent_projects = c.recent_projects := by
  refine ⟨readStoredConfig_dumpConfig c, ?_, ?_⟩ <;>
    simp [save_config, hw, load_saved_config, decodeLoaded_dumpConfig,
          update_recent_projects_menu]

/-- Witness for C2: a concrete config with one recent project round-trips. -/
theorem c2_save_load_roundtrip_witness :
    readStoredConfig (dumpConfig ⟨"/py", "/out", [⟨"proj", "/p", 7⟩]⟩)
      = some ⟨"/py", "/out", [⟨"proj", "/p", 7⟩]⟩ ∧
    (load_saved_config
        (save_config ⟨"/home/user", true, FileState.absent, []⟩
          ⟨"/py", "/out", [⟨"proj", "/p", 7⟩]⟩)
        initialState).2.output_dir = "/out" ∧
    (load_saved_config
        (save_config ⟨"/home/user", true, FileState.absent, []⟩
          ⟨"/py", "/out", [⟨"proj", "/p", 7⟩]⟩)
        initialState).2.recent_projects = [⟨"proj", "/p", 7⟩] :=
  c2_save_load_roundtrip ⟨"/home/user", true, FileState.absent, []⟩ initialState
    ⟨"/py", "/out", [⟨"proj", "/p", 7⟩]⟩ rfl

/-- C3: the rebuilt Recent Projects menu has `min 5 n` entries (so never more
than 5), and those entries are a suffix of the recorded names — i.e. the most
recently recorded ones, the list being kept in recording order. -/
theorem c3_recent_menu_capped (s : AppState) :
    (update_recent_projects_menu s).recent_menu.length
      = min 5 s.recent_projects.length ∧
    (update_recent_projects_menu s).recent_menu.length ≤ 5 ∧
    List.IsSuffix (update_recent_projects_menu s).recent_menu
      (s.recent_projects.map Project.name) := by
  refine ⟨?_, ?_, ?_⟩
  · simp [update_recent_projects_menu, lastN]
    omega
  · simp [update_recent_projects_menu, lastN]
    omega
  · simp only [update_recent_projects_menu, lastN, List.map_drop]
    rw [← List.length_map s.recent_projects Project.name]
    exact List.drop_suffix _ _

/-- C4: after `__init__` completes, the in-memory `recent_projects` list is
`[]` whatever the config file holds (line 66 reassigns it after
`load_saved_config` populated it), while the Recent Projects menu built
during the load still shows the persisted entries (capped at 5). -/
theorem c4_recent_projects_cleared_after_init (w : World) :
    (appInit w).2.recent_projects = [] ∧
    ∀ c : UserConfig, w.file = FileState.content (dumpConfig c) →
      (appInit w).2.recent_menu = (lastN 5 c.recent_projects).map Project.name := by
  constructor
  · simp [appInit]
  · intro c hfile
    simp [appInit, init_config, hfile, load_saved_config,
          decodeLoaded_dumpConfig, update_recent_projects_menu]

/-- Witness for C4: six persisted projects; after `__init__` the in-memory
list is empty, yet the menu shows the last five names. -/
theorem c4_recent_projects_cleared_witness :
    (appInit ⟨"/home/user", true,
        FileState.content (dumpConfig ⟨"/py", "/out",
          [⟨"p1", "/1", 1⟩, ⟨"p2", "/2", 2⟩, ⟨"p3", "/3", 3⟩,
           ⟨"p4", "/4", 4⟩, ⟨"p5", "/5", 5⟩, ⟨"p6", "/6", 6⟩]⟩), []⟩).2.recent_projects
      = [] ∧
    (appInit ⟨"/home/user", true,
        FileState.content (dumpConfig ⟨"/py", "/out",
          [⟨"p1", "/1", 1⟩, ⟨"p2", "/2", 2⟩, ⟨"p3", "/3", 3⟩,
           ⟨"p4", "/4", 4⟩, ⟨"p5", "/5", 5⟩, ⟨"p6", "/6", 6⟩]⟩), []⟩).2.recent_menu
      = ["p2", "p3", "p4", "p5", "p6"] := by
  have h := c4_recent_projects_cleared_after_init
    ⟨"/home/user", true,
      FileState.content (dumpConfig ⟨"/py", "/out",
        [⟨"p1", "/1", 1⟩, ⟨"p2", "/2", 2⟩, ⟨"p3", "/3", 3⟩,
         ⟨"p4", "/4", 4⟩, ⟨"p5", "/5", 5⟩, ⟨"p6", "/6", 6⟩]⟩), []⟩
  exact ⟨h.1, by rw [h.2 ⟨"/py", "/out",
    [⟨"p1", "/1", 1⟩, ⟨"p2", "/2", 2⟩, ⟨"p3", "/3", 3⟩,
     ⟨"p4", "/4", 4⟩, ⟨"p5", "/5", 5⟩, ⟨"p6", "/6", 6⟩]⟩ rfl]; rfl⟩

/-- C5 (counterexample): on a load failure (corrupt file) the caller does not
receive a default-valued config — the form state is simply left unchanged,
and its `output_dir` (the startup empty string) differs from both documented
default directories. -/
theorem c5_fail_soft_counterexample :
    (load_saved_config ⟨"/home/user", true, FileState.corrupt, []⟩ initialState).2
      = initialState ∧
    initialState.output_dir ≠ (default_config "/home/user").last_output_dir ∧
    initialState.output_dir ≠ (default_config "/home/user").last_python_dir :=
  ⟨rfl, by decide, by decide⟩

/-- C5 (amended): persistence errors fail soft without substituting
defaults: on load failure (missing or unparsable file) the error is logged
and the form state is left exactly as it was; on save failure the error is
logged and the file is left unchanged; neither operation propagates an
exception (both are total functions of the state). -/
theorem c5_fail_soft (w : World) (s : AppState) (c : UserConfig)
    (hload : w.file = FileState.absent ∨ w.file = FileState.corrupt)
    (hw : w.writable = false) :
    (load_saved_config w s).2 = s ∧
    (load_saved_config w s).1.applog = w.applog ++ ["Failed to load config"] ∧
    (load_saved_config w s).1.file = w.file ∧
    (save_config w c).file = w.file ∧
    (save_config w c).applog = w.applog ++ ["Failed to save config"] := by
  rcases hload with h | h <;>
    simp [load_saved_config, save_config, h, hw]

/-- Witness for C5: corrupt file in an unwritable location. -/
theorem c5_fail_soft_witness :
    (load_saved_config ⟨"/home/user", false, FileState.corrupt, ["boot"]⟩
        initialState).2 = initialState ∧
    (load_saved_config ⟨"/home/user", false, FileState.corrupt, ["boot"]⟩
        initialState).1.applog = ["boot"] ++ ["Failed to load config"] ∧
    (load_saved_config ⟨"/home/user", false, FileState.corrupt, ["boot"]⟩
        initialState).1.file = FileState.corrupt ∧
    (save_config ⟨"/home/user", false, FileState.corrupt, ["boot"]⟩
        (default_config "/home/user")).file = FileState.corrupt ∧
    (save_config ⟨"/home/user", false, FileState.corrupt, ["boot"]⟩
        (default_config "/home/user")).applog
      = ["boot"] ++ ["Failed to save config"] :=
  c5_fail_soft ⟨"/home/user", false, FileState.corrupt, ["boot"]⟩ initialState
    (default_config "/home/user") (Or.inr rfl) rfl

/-- C6: `load_saved_config` never touches the `python_file` field, whatever
the file contains (frame property), and the fields it extracts from a stored
document are exactly `last_output_dir` and `recent_projects` —
`last_python_dir` is written by `save_config` (it reads back via
`readStoredConfig`) but never restored into form state. -/
theorem c6_python_file_untouched (w : World) (s : AppState) :
    (load_saved_config w s).2.python_file = s.python_file ∧
    ∀ c : UserConfig,
      decodeLoaded (dumpConfig c) = some (c.last_output_dir, c.recent_projects) := by
  refine ⟨?_, fun c => decodeLoaded_dumpConfig c⟩
  unfold load_saved_config
  rcases w with ⟨home, writable, file, applog⟩
  cases file with
  | absent => rfl
  | corrupt => rfl
  | content j =>
    cases hd : decodeLoaded j with
    | none => simp [hd]
    | some pr => simp [hd, update_recent_projects_menu]

/-! ## Orchestrator helper lemmas -/

theorem countRunning_map_preserve (f : BuildRun → BuildRun)
    (hf : ∀ r, ((f r).status == BuildStatus.running)
              = (r.status == BuildStatus.running))
    (rs : List BuildRun) :
    ((rs.map f).filter (fun r => r.status == BuildStatus.running)).length
      = (rs.filter (fun r => r.status == BuildStatus.running)).length := by
  induction rs with
  | nil => rfl
  | cons r rest ih =>
    simp only [List.map_cons, List.filter_cons, hf r]
    cases h : (r.status == BuildStatus.running) <;> simp [h, ih]

theorem countRunning_map_kill (f : BuildRun → BuildRun)
    (hf : ∀ r, ((f r).status == BuildStatus.running) = false)
    (rs : List BuildRun) :
    ((rs.map f).filter (fun r => r.status == BuildStatus.running)).length = 0 := by
  induction rs with
  | nil => rfl
  | cons r rest ih => simp [List.filter_cons, hf r, ih]

theorem reachable_countActive_le_one (o : Orch) (h : Reachable o) :
    countActive o ≤ 1 := by
  induction h with
  | init w => simp [countActive, initOrch]
  | editForm o pf od h ih => simpa [countActive] using ih
  | start o fs h ih =>
    unfold start_build_apk
    split
    · simpa [countActive] using ih
    · split
      · simpa [countActive] using ih
      · next hc =>
        simp only [bne_iff_ne, ne_eq, not_not] at hc
        simp only [countActive] at hc ⊢
        simp [List.filter_append, List.filter_cons, hc]
  | line o l h ih =>
    unfold feedLine
    split
    · exact ih
    · simp only [countActive] at ih ⊢
      rw [countRunning_map_preserve]
      · exact ih
      · intro r
        cases h : (r.status == BuildStatus.running) <;> simp [h]
  | done o c h ih =>
    unfold completeBuild
    split
    · exact ih
    · split
      · simp only [countActive]
        rw [countRunning_map_kill]
        · omega
        · intro r
          cases h : (r.status == BuildStatus.running) <;> simp [h]
      · simp only [countActive]
        rw [countRunning_map_kill]
        · omega
        · intro r
          cases h : (r.status == BuildStatus.running) <;> simp [h]
  | cancel o h ih =>
    unfold cancelBuild
    split
    · exact ih
    · simp only [countActive]
      rw [countRunning_map_kill]
      · omega
      · intro r
        cases h : (r.status == BuildStatus.running) <;> simp [h]

theorem find?_pred_true {α : Type} (p : α → Bool) (rs : List α) (a : α)
    (h : rs.find? p = some a) : p a = true := by
  induction rs with
  | nil => simp [List.find?] at h
  | cons x t ih =>
    cases hp : p x with
    | true =>
      rw [List.find?_cons_of_pos t hp] at h
      injection h with h2
      rw [← h2]
      exact hp
    | false =>
      rw [List.find?_cons_of_neg t (by simp [hp])] at h
      exact ih h

theorem feedLine_mono (o : Orch) (l : String) :
    o.displayedProgress ≤ (feedLine o l).displayedProgress := by
  unfold feedLine
  split
  · exact le_refl _
  · exact Nat.le_max_left _ _

theorem foldl_feedLine_mono (lines : List String) (o : Orch) :
    o.displayedProgress ≤ (lines.foldl feedLine o).displayedProgress := by
  induction lines generalizing o with
  | nil => exact le_refl _
  | cons a t ih =>
    exact le_trans (feedLine_mono o a) (ih (feedLine o a))

/-! ## Claims C7-C10: build orchestrator (spec-modelled) -/

/-- C7: in every reachable orchestrator state at most one `BuildRun` is
active, and invoking the build-start operation while one is active leaves the
run list (and the active count) unchanged — the second build is rejected. -/
theorem c7_at_most_one_active_build (o : Orch) (fs : String → Bool)
    (h : Reachable o) :
    countActive o ≤ 1 ∧
    (countActive o ≠ 0 →
      (start_build_apk fs o).runs = o.runs ∧
      countActive (start_build_apk fs o) = countActive o) := by
  refine ⟨reachable_countActive_le_one o h, fun hc => ?_⟩
  unfold start_build_apk
  split
  · exact ⟨rfl, rfl⟩
  · split
    · exact ⟨rfl, rfl⟩
    · next h2 =>
      simp only [bne_iff_ne, ne_eq, not_not] at h2
      exact absurd h2 hc

/-- Witness for C7: a reachable state holding one active run; starting again
changes nothing. -/
theorem c7_at_most_one_active_build_witness :
    countActive (start_build_apk (fun _ => true)
      { initOrch ⟨"/home/user", true, FileState.absent, []⟩ with
        python_file := "/a.py", output_dir := "/out" }) ≤ 1 ∧
    (start_build_apk (fun _ => true)
      (start_build_apk (fun _ => true)
        { initOrch ⟨"/home/user", true, FileState.absent, []⟩ with
          python_file := "/a.py", output_dir := "/out" })).runs
      = (start_build_apk (fun _ => true)
          { initOrch ⟨"/home/user", true, FileState.absent, []⟩ with
            python_file := "/a.py", output_dir := "/out" }).runs := by
  have h := c7_at_most_one_active_build
    (start_build_apk (fun _ => true)
      { initOrch ⟨"/home/user", true, FileState.absent, []⟩ with
        python_file := "/a.py", output_dir := "/out" })
    (fun _ => true)
    (Reachable.start _ _ (Reachable.editForm _ "/a.py" "/out"
      (Reachable.init ⟨"/home/user", true, FileState.absent, []⟩)))
  exact ⟨h.1, (h.2 (by decide)).1⟩

/-- C8: when the script path is empty, the output directory is empty, or the
script does not exist on disk, the Build APK action surfaces the validation
message and starts nothing — the run list and the active count are
unchanged. -/
theorem c8_build_validation_blocks (fs : String → Bool) (o : Orch)
    (hbad : o.python_file = "" ∨ o.output_dir = "" ∨ fs o.python_file = false) :
    (start_build_apk fs o).runs = o.runs ∧
    countActive (start_build_apk fs o) = countActive o ∧
    (start_build_apk fs o).surfaced
      = ["Please select a Python file and output directory"] := by
  rcases hbad with h | h | h <;>
    simp [start_build_apk, countActive, h]

/-- Witness for C8: the startup form (empty script path) cannot start a
build. -/
theorem c8_build_validation_blocks_witness :
    (start_build_apk (fun _ => true)
        (initOrch ⟨"/home/user", true, FileState.absent, []⟩)).runs
      = (initOrch ⟨"/home/user", true, FileState.absent, []⟩).runs ∧
    countActive (start_build_apk (fun _ => true)
        (initOrch ⟨"/home/user", true, FileState.absent, []⟩))
      = countActive (initOrch ⟨"/home/user", true, FileState.absent, []⟩) ∧
    (start_build_apk (fun _ => true)
        (initOrch ⟨"/home/user", true, FileState.absent, []⟩)).surfaced
      = ["Please select a Python file and output directory"] :=
  c8_build_validation_blocks (fun _ => true)
    (initOrch ⟨"/home/user", true, FileState.absent, []⟩) (Or.inl rfl)

/-- C9: the terminal status of a completed build is determined exactly by the
exit code: 0 makes the active run `succeeded` with progress 100, displayed
progress 100, and the output directory recorded into `UserConfig` and
persisted via `save_config`; any non-zero code makes it `failed` with the
last (at most 10) log lines surfaced; either way no run stays active and the
build trigger is re-enabled. -/
theorem c9_exit_code_determines_status (o : Orch) (r : BuildRun) (code : Int)
    (hr : o.runs.find? (fun r => r.status == BuildStatus.running) = some r) :
    countActive (completeBuild o code) = 0 ∧
    (completeBuild o code).triggerEnabled = true ∧
    (code = 0 →
      (∃ r2 ∈ (completeBuild o code).runs,
        r2.status = BuildStatus.succeeded ∧ r2.progress = 100) ∧
      (completeBuild o code).displayedProgress = 100 ∧
      (completeBuild o code).config.last_output_dir = o.output_dir ∧
      (completeBuild o code).world
        = save_config o.world { o.config with last_output_dir := o.output_dir }) ∧
    (code ≠ 0 →
      (∃ r2 ∈ (completeBuild o code).runs, r2.status = BuildStatus.failed) ∧
      List.IsSuffix (completeBuild o code).surfaced r.logLines ∧
      (completeBuild o code).surfaced.length ≤ 10) := by
  have hmem : r ∈ o.runs := List.mem_of_find?_eq_some hr
  have hrun : (r.status == BuildStatus.running) = true :=
    find?_pred_true (fun r => r.status == BuildStatus.running) o.runs r hr
  unfold completeBuild
  rw [hr]
  by_cases hc : code = 0
  · subst hc
    simp only [if_pos rfl]
    refine ⟨?_, rfl, fun _ => ⟨?_, rfl, rfl, rfl⟩, fun hne => absurd rfl hne⟩
    · simp only [countActive]
      apply countRunning_map_kill
      intro r2
      cases h : (r2.status == BuildStatus.running) <;> simp [h]
    · exact ⟨_, List.mem_map_of_mem _ hmem, by simp [hrun]⟩
  · simp only [if_neg hc]
    refine ⟨?_, by simp, fun h0 => absurd h0 hc, fun _ => ⟨?_, ?_, ?_⟩⟩
    · simp only [countActive]
      apply countRunning_map_kill
      intro r2
      cases h : (r2.status == BuildStatus.running) <;> simp [h]
    · exact ⟨_, List.mem_map_of_mem _ hmem, by simp [hrun]⟩
    · exact List.drop_suffix _ _
    · simp only [lastN, List.length_drop]
      omega

/-- Witness for C9: one active run with log `["l1", "l2"]`, completed once
with exit code 0 and once with exit code 1. -/
theorem c9_exit_code_determines_status_witness :
    countActive (completeBuild
      { python_file := "/a.py", output_dir := "/out",
        config := default_config "/home/user",
        world := ⟨"/home/user", true, FileState.absent, []⟩,
        runs := [⟨BuildStatus.running, 50, ["l1", "l2"]⟩],
        triggerEnabled := false, displayedProgress := 50, surfaced := [] } 0) = 0 ∧
    (completeBuild
      { python_file := "/a.py", output_dir := "/out",
        config := default_config "/home/user",
        world := ⟨"/home/user", true, FileState.absent, []⟩,
        runs := [⟨BuildStatus.running, 50, ["l1", "l2"]⟩],
        triggerEnabled := false, displayedProgress := 50, surfaced := [] } 0).displayedProgress
      = 100 ∧
    (completeBuild
      { python_file := "/a.py", output_dir := "/out",
        config := default_config "/home/user",
        world := ⟨"/home/user", true, FileState.absent, []⟩,
        runs := [⟨BuildStatus.running, 50, ["l1", "l2"]⟩],
        triggerEnabled := false, displayedProgress := 50, surfaced := [] } 0).config.last_output_dir
      = "/out" ∧
    (∃ r2 ∈ (completeBuild
      { python_file := "/a.py", output_dir := "/out",
        config := default_config "/home/user",
        world := ⟨"/home/user", true, FileState.absent, []⟩,
        runs := [⟨BuildStatus.running, 50, ["l1", "l2"]⟩],
        triggerEnabled := false, displayedProgress := 50, surfaced := [] } 0).runs,
      r2.status = BuildStatus.succeeded ∧ r2.progress = 100) ∧
    (completeBuild
      { python_file := "/a.py", output_dir := "/out",
        config := default_config "/home/user",
        world := ⟨"/home/user", true, FileState.absent, []⟩,
        runs := [⟨BuildStatus.running, 50, ["l1", "l2"]⟩],
        triggerEnabled := false, displayedProgress := 50, surfaced := [] } 1).triggerEnabled
      = true ∧
    (∃ r2 ∈ (completeBuild
      { python_file := "/a.py", output_dir := "/out",
        config := default_config "/home/user",
        world := ⟨"/home/user", true, FileState.absent, []⟩,
        runs := [⟨BuildStatus.running, 50, ["l1", "l2"]⟩],
        triggerEnabled := false, displayedProgress := 50, surfaced := [] } 1).runs,
      r2.status = BuildStatus.failed) ∧
    List.IsSuffix (completeBuild
      { python_file := "/a.py", output_dir := "/out",
        config := default_config "/home/user",
        world := ⟨"/home/user", true, FileState.absent, []⟩,
        runs := [⟨BuildStatus.running, 50, ["l1", "l2"]⟩],
        triggerEnabled := false, displayedProgress := 50, surfaced := [] } 1).surfaced
      ["l1", "l2"] := by
  have h0 := c9_exit_code_determines_status
    { python_file := "/a.py", output_dir := "/out",
      config := default_config "/home/user",
      world := ⟨"/home/user", true, FileState.absent, []⟩,
      runs := [⟨BuildStatus.running, 50, ["l1", "l2"]⟩],
      triggerEnabled := false, displayedProgress := 50, surfaced := [] }
    ⟨BuildStatus.running, 50, ["l1", "l2"]⟩ 0 rfl
  have h1 := c9_exit_code_determines_status
    { python_file := "/a.py", output_dir := "/out",
      config := default_config "/home/user",
      world := ⟨"/home/user", true, FileState.absent, []⟩,
      runs := [⟨BuildStatus.running, 50, ["l1", "l2"]⟩],
      triggerEnabled := false, displayedProgress := 50, surfaced := [] }
    ⟨BuildStatus.running, 50, ["l1", "l2"]⟩ 1 rfl
  obtain ⟨ha, -, hz, -⟩ := h0
  obtain ⟨he, hs, hp, -⟩ := hz rfl
  obtain ⟨-, ht, -, hf⟩ := h1
  obtain ⟨hfe, hsuf, -⟩ := hf (by decide)
  exact ⟨ha, hs, hp, he, ht, hfe, hsuf⟩

/-- C10: the displayed progress percentage never decreases while the
orchestrator processes output lines: one streamed line never lowers it, and
neither does any sequence of streamed lines. -/
theorem c10_progress_monotone (o : Orch) (l : String) (lines : List String) :
    o.displayedProgress ≤ (feedLine o l).displayedProgress ∧
    o.displayedProgress ≤ (lines.foldl feedLine o).displayedProgress :=
  ⟨feedLine_mono o l, foldl_feedLine_mono lines o⟩

end PyApk
